import Mathlib

/-!
Verification development for the DSM storage-node reward engine
(`dsm-storage-node/src/staking/rewards.rs`).

Modelling conventions:
* Rust `String` / `&str` values and byte buffers (`Vec<u8>`, `[u8; 32]`) are
  modelled as `Bytes := List Nat`, each entry standing for one byte of the
  UTF-8 encoding.
* Rust `u64`/`u8` fields are modelled as `Nat`; wherever a narrowing cast
  occurs in the source (`as u64` on a `u128`), the model takes the value
  `% 2^64` explicitly.
* `HashMap<K, V>` is modelled as an association list `List (K × V)`;
  `HashSet<String>` is modelled as `List Bytes` in the set's iteration
  order (Rust's `HashSet` iterates in an unspecified, seed-dependent order;
  the order is therefore part of the model state).
* The external DLV adapter (`DLVManager`, a collaborator from the core DSM
  crate, not part of this repository's sources) is abstracted as an oracle
  record giving the outcome of each adapter call; theorems quantify over all
  oracles.
* The `f64` arithmetic in `Ratio::new` is idealised to exact rational
  arithmetic (`ℚ`): the range comparisons `value >= 0.0 && value <= 1.0` are
  exact on `f64`, and every concrete input used in a theorem below
  (`0.25`, `1.0`, `2.0`) has an exactly representable `f64` product with
  `1_000_000.0`, so the idealisation agrees with the source at every input
  the theorems touch.
-/

deriving instance DecidableEq for Except

namespace DSMRewards

/-- Byte strings: Rust `String` / `Vec<u8>` values, one `Nat` per byte. -/
abbrev Bytes := List Nat

/-- Little-endian 8-byte encoding of a `u64` (`u64::to_le_bytes`). -/
def le64 (n : Nat) : Bytes :=
  [n % 256, n / 256 % 256, n / 256 ^ 2 % 256, n / 256 ^ 3 % 256,
   n / 256 ^ 4 % 256, n / 256 ^ 5 % 256, n / 256 ^ 6 % 256, n / 256 ^ 7 % 256]

/-- Lexicographic order on byte strings (used by the specification's canonical
regions encoding, which sorts regions before hashing). -/
def lexLe : Bytes → Bytes → Bool
  | [], _ => true
  | _ :: _, [] => false
  | a :: as, b :: bs => if a < b then true else if b < a then false else lexLe as bs

/-- Insert into a `lexLe`-sorted list, keeping it sorted. -/
def insertLex (x : Bytes) : List Bytes → List Bytes
  | [] => [x]
  | y :: ys => if lexLe x y then x :: y :: ys else y :: insertLex x ys

/-- Insertion sort by `lexLe`. -/
def sortLex (l : List Bytes) : List Bytes :=
  l.foldr insertLex []

/-! ## Ratio (rewards.rs lines 73-97)

Rust:
```
pub struct Ratio(u64);
impl Ratio {
    pub fn new(value: f64) -> Self {
        assert!(value >= 0.0 && value <= 1.0, "Ratio must be between 0.0 and 1.0");
        Self((value * 1_000_000.0) as u64)
    }
    pub fn apply_to(&self, value: u64) -> u64 {
        ((value as u128 * self.0 as u128) / 1_000_000) as u64
    }
}
```
-/

/-- Fixed-point ratio with 6-decimal precision (`Ratio(u64)`, rewards.rs:74). -/
structure Ratio where
  raw : Nat
deriving DecidableEq, Repr

/-- Outcome of `Ratio::new`: either a constructed ratio or a failed
`assert!`, which panics (aborting the calling thread) rather than
returning an error value. -/
inductive RatioNewOutcome where
  | ok (raw : Nat)
  | assertFailure
deriving DecidableEq, Repr

/-- Model of `Ratio::new` (rewards.rs:78-81).  The `assert!` guard
`value >= 0.0 && value <= 1.0` panics out of range; in range the raw value is
`(value * 1_000_000.0) as u64`, i.e. the product truncated toward zero.  The
input `f64` is idealised as an exact rational (see file header). -/
def ratio_new (value : ℚ) : RatioNewOutcome :=
  if 0 ≤ value ∧ value ≤ 1 then
    .ok ⌊value * 1000000⌋.toNat
  else
    .assertFailure

/-- Model of `Ratio::apply_to` (rewards.rs:94-96): the product is computed in
128-bit width (never overflowing since both factors are below `2^64`), divided
by `10^6`, and the quotient narrowed back to `u64` (`% 2^64`). -/
def Ratio.apply_to (r : Ratio) (value : Nat) : Nat :=
  (value * r.raw / 1000000) % 2 ^ 64

/-! ### Claims C7, C8, C9 -/

/-- C7 counterexample: `Ratio::new(2.0)` hits the `assert!` and panics; it does
not return an invalid-argument error, contradicting the claim that out-of-range
construction "fails with an invalid-argument error (it does not abort the
process)". -/
theorem ratio_new_out_of_range_asserts :
    ratio_new 2 = RatioNewOutcome.assertFailure ∧
    ∀ n, ratio_new 2 ≠ RatioNewOutcome.ok n := by
  have h : ratio_new 2 = RatioNewOutcome.assertFailure := by decide
  refine ⟨h, fun n hn => ?_⟩
  rw [h] at hn
  exact RatioNewOutcome.noConfusion hn

/-- C7 (amended): for `x ∈ [0,1]`, `Ratio::new(x)` yields raw value
`⌊x · 10^6⌋`; for `x` outside `[0,1]` the `assert!` fails, i.e. construction
panics (aborting the calling thread) instead of returning an
invalid-argument error. -/
theorem ratio_new_behavior (x : ℚ) :
    (0 ≤ x → x ≤ 1 → ratio_new x = .ok ⌊x * 1000000⌋.toNat) ∧
    (x < 0 ∨ 1 < x → ratio_new x = .assertFailure) := by
  constructor
  · intro h0 h1
    simp [ratio_new, h0, h1]
  · intro h
    have : ¬ (0 ≤ x ∧ x ≤ 1) := by
      rcases h with h | h
      · exact fun hc => absurd hc.1 (not_le.mpr h)
      · exact fun hc => absurd hc.2 (not_le.mpr h)
    simp [ratio_new, this]

/-- C7 witness: the amended behaviour at the concrete inputs `0.25` (in range,
raw `250_000`) and `2.0` (out of range, assertion failure). -/
theorem ratio_new_behavior_witness :
    ratio_new (1 / 4) = .ok 250000 ∧ ratio_new 2 = .assertFailure := by
  refine ⟨?_, ?_⟩
  · have h := (ratio_new_behavior (1 / 4)).1 (by norm_num) (by norm_num)
    rw [h]
    norm_num
    rfl
  · exact (ratio_new_behavior 2).2 (by norm_num)

/-- C8: for every ratio with `raw ≤ 10^6` (the data-model invariant, and the
only raw values `Ratio::new` produces) and every `u64` amount `v`,
`apply_to` returns exactly `⌊v · raw / 10^6⌋`: the 128-bit intermediate
product does not overflow and the final narrowing cast to `u64` is the
identity. -/
theorem ratio_apply_to_exact (r : Ratio) (v : Nat)
    (hr : r.raw ≤ 1000000) (hv : v < 2 ^ 64) :
    r.apply_to v = v * r.raw / 1000000 := by
  have hle : v * r.raw / 1000000 ≤ v := by
    calc v * r.raw / 1000000 ≤ v * 1000000 / 1000000 :=
          Nat.div_le_div_right (Nat.mul_le_mul_left v hr)
      _ = v := Nat.mul_div_cancel v (by norm_num)
  exact Nat.mod_eq_of_lt (lt_of_le_of_lt hle hv)

/-- C8 witness: `Ratio::new(0.25).apply_to(1_000) = 250` and
`Ratio::new(1.0).apply_to(u64::MAX) = u64::MAX` (raw values `250_000` and
`1_000_000`), via `ratio_apply_to_exact` at those inputs. -/
theorem ratio_apply_to_exact_witness :
    Ratio.apply_to ⟨250000⟩ 1000 = 250 ∧
    Ratio.apply_to ⟨1000000⟩ (2 ^ 64 - 1) = 2 ^ 64 - 1 := by
  constructor
  · exact (ratio_apply_to_exact ⟨250000⟩ 1000 (by decide) (by decide)).trans (by decide)
  · exact (ratio_apply_to_exact ⟨1000000⟩ (2 ^ 64 - 1) (by decide)
      (by norm_num)).trans (by norm_num [Nat.mul_div_cancel])

/-- C9: for every ratio with `raw ≤ 10^6` and every amount `v`,
`r.apply_to(v) ≤ v`. -/
theorem ratio_apply_to_le (r : Ratio) (v : Nat) (hr : r.raw ≤ 1000000) :
    r.apply_to v ≤ v := by
  have h1 : v * r.raw / 1000000 ≤ v := by
    calc v * r.raw / 1000000 ≤ v * 1000000 / 1000000 :=
          Nat.div_le_div_right (Nat.mul_le_mul_left v hr)
      _ = v := Nat.mul_div_cancel v (by norm_num)
  exact le_trans (Nat.mod_le _ _) h1

/-- C9 witness: `Ratio(600_000).apply_to(1_000) ≤ 1_000`, via
`ratio_apply_to_le` at that input. -/
theorem ratio_apply_to_le_witness :
    Ratio.apply_to ⟨600000⟩ 1000 ≤ 1000 :=
  ratio_apply_to_le ⟨600000⟩ 1000 (by decide)

/-! ## Storage receipts (rewards.rs lines 26-69, 361-415)

`StorageMetrics.regions` is a Rust `HashSet<String>`; it is modelled as the
list of its elements in the set's iteration order (unspecified and
seed-dependent in Rust, hence part of the model state).
-/

/-- `StorageMetrics` (rewards.rs:53-69). `uptime_percentage` is a `u8`. -/
structure StorageMetrics where
  bytes_stored : Nat
  retrievals : Nat
  operations_count : Nat
  uptime_percentage : Nat
  regions : List Bytes
deriving DecidableEq, Repr

/-- `StorageReceipt` (rewards.rs:28-50). `service_period` is `(u64, u64)`. -/
structure StorageReceipt where
  node_id : Bytes
  client_id : Bytes
  service_period : Nat × Nat
  storage_metrics : StorageMetrics
  receipt_hash : Bytes
  client_signature : Bytes
  node_signature : Bytes
deriving DecidableEq, Repr

/-- bincode (v1, default options: fixed-width little-endian integers) encoding
of a byte/UTF-8 string: a `u64` length prefix followed by the bytes. -/
def encString (s : Bytes) : Bytes :=
  le64 s.length ++ s

/-- bincode serialization of `StorageMetrics` as performed by
`bincode::serialize(&receipt.storage_metrics)` in `verify_receipt`
(rewards.rs:398): fields in declaration order (`bytes_stored`, `retrievals`,
`operations_count`, `uptime_percentage`, `regions`), with the `HashSet`
written as a `u64` count followed by the elements in iteration order —
NOT sorted. -/
def metricsBincode (m : StorageMetrics) : Bytes :=
  le64 m.bytes_stored ++ le64 m.retrievals ++ le64 m.operations_count ++
    [m.uptime_percentage] ++ le64 m.regions.length ++
    (m.regions.map encString).flatten

/-- Modelled from the spec: the canonical `StorageMetrics` encoding described
in spec §6 — identical to `metricsBincode` except that the regions are written
as a lexicographically sorted sequence. This definition follows the spec's
words and exists to be compared with `metricsBincode`, which follows the
source. -/
def metricsCanonical (m : StorageMetrics) : Bytes :=
  le64 m.bytes_stored ++ le64 m.retrievals ++ le64 m.operations_count ++
    [m.uptime_percentage] ++ le64 m.regions.length ++
    ((sortLex m.regions).map encString).flatten

/-- The byte string fed to BLAKE3 by `verify_receipt` (rewards.rs:391-401):
`node_id || client_id || LE64(start) || LE64(end) || bincode(metrics)`. -/
def hashInput (r : StorageReceipt) : Bytes :=
  r.node_id ++ r.client_id ++ le64 r.service_period.1 ++ le64 r.service_period.2 ++
    metricsBincode r.storage_metrics

/-- Modelled from the spec: the canonical hash pre-image of spec §6/C3, with
the sorted regions encoding. -/
def hashInputCanonical (r : StorageReceipt) : Bytes :=
  r.node_id ++ r.client_id ++ le64 r.service_period.1 ++ le64 r.service_period.2 ++
    metricsCanonical r.storage_metrics

/-! ## Errors (error.rs `StorageNodeError`, as used by rewards.rs)

The source builds its error messages with `format!`; distinct format strings
are modelled as distinct constructors so that error kinds remain
distinguishable without modelling string formatting.
-/

/-- Distinct `StorageNodeError::Staking` messages produced in rewards.rs. -/
inductive StakingMsg where
  /-- `"Invalid recipient ratios: sum must be 1.0, got {}"` (rewards.rs:273),
  carrying the raw ratio sum. -/
  | invalidRatios (sum : Nat)
  /-- `"Failed to create vault: {}"` (rewards.rs:308). -/
  | failedCreateVault (e : Bytes)
  /-- `"Failed to create vault post: {}"` (rewards.rs:317). -/
  | failedCreateVaultPost (e : Bytes)
  /-- `"Invalid receipt: missing signatures"` (rewards.rs:385). -/
  | missingSignatures
  /-- `"Invalid receipt: hash mismatch"` (rewards.rs:409). -/
  | hashMismatch
deriving DecidableEq, Repr

/-- `StorageNodeError` variants reached from rewards.rs. -/
inductive StorageNodeError where
  | Staking (msg : StakingMsg)
  | Serialization (e : Bytes)
  | NotFound (what : Bytes)
  | Internal
deriving DecidableEq, Repr

/-! ## Manager state (rewards.rs lines 139-158)

Only the components the verified operations touch are modelled; the mpsc
channel endpoints are represented by the list of results published on them,
and the rate schedule is not modelled (its consumer,
`calculate_node_rewards`, computes in `f64`). Locks are modelled as direct
state access (the poisoning-only `Internal` error paths are unreachable in
this sequential model).
-/

/-- `VaultMetadata` (rewards.rs:161-189). `recipients` is a
`HashMap<String, Ratio>` modelled as an association list. -/
structure VaultMetadata where
  vault_id : Bytes
  purpose : Bytes
  creator_id : Bytes
  token_amount : Nat
  token_id : Bytes
  created_at : Nat
  distribution_time : Nat
  recipients : List (Bytes × Ratio)
  status : Bytes
deriving DecidableEq, Repr

/-- `DistributionRequest` (rewards.rs:192-202). The engine only ever reads
`reference_state.hash`, so the request carries that hash. -/
structure DistributionRequest where
  vault_id : Bytes
  reference_state_hash : Bytes
  timestamp : Nat
deriving DecidableEq, Repr

/-- `DistributionResult` (rewards.rs:205-221). `error` messages are modelled
as a dedicated constructor type below. -/
inductive DistErr where
  /-- `"Not yet time to distribute (scheduled at {})"` (rewards.rs:525). -/
  | notYetTime (scheduled : Nat)
  /-- `"Failed to claim vault: {}"` (rewards.rs:584). -/
  | failedClaim (e : Bytes)
  /-- `"Failed to unlock vault: conditions not met"` (rewards.rs:596). -/
  | conditionsNotMet
  /-- `"Error unlocking vault: {}"` (rewards.rs:606). -/
  | errorUnlocking (e : Bytes)
deriving DecidableEq, Repr

/-- Result of a distribution attempt (rewards.rs:205-221). -/
structure DistributionResult where
  vault_id : Bytes
  success : Bool
  timestamp : Nat
  error : Option DistErr
  distribution_details : Option (List (Bytes × Nat))
deriving DecidableEq, Repr

/-- The mutable state of a `RewardVaultManager` (rewards.rs:139-158): the
vault registry, the per-node receipt registry, and the pending distribution
queue. -/
structure ManagerState where
  vault_registry : List (Bytes × VaultMetadata)
  receipt_registry : List (Bytes × List StorageReceipt)
  distribution_queue : List DistributionRequest
deriving DecidableEq, Repr

/-- `registry.entry(node_id).or_insert_with(Vec::new).push(receipt)`
(rewards.rs:369-373): append the receipt to the node's list, creating the
entry if absent. -/
def pushReceipt (r : StorageReceipt) :
    List (Bytes × List StorageReceipt) → List (Bytes × List StorageReceipt)
  | [] => [(r.node_id, [r])]
  | (k, l) :: rest =>
    if k = r.node_id then (k, l ++ [r]) :: rest else (k, l) :: pushReceipt r rest

/-- `RewardVaultManager::verify_receipt` (rewards.rs:379-415), parameterised
by the BLAKE3 hash function (`blake3` is an external primitive; theorems
quantify over it). Checks that both signatures are non-empty and that the
receipt hash equals BLAKE3 over `hashInput`; nothing else — in particular the
service period is not inspected. -/
def verify_receipt (blake3 : Bytes → Bytes) (r : StorageReceipt) :
    Except StorageNodeError Bool :=
  if r.client_signature = [] ∨ r.node_signature = [] then
    .error (.Staking .missingSignatures)
  else if blake3 (hashInput r) ≠ r.receipt_hash then
    .error (.Staking .hashMismatch)
  else
    .ok true

/-- `RewardVaultManager::process_receipt` (rewards.rs:361-376): verify, then
append to the node's receipt list. -/
def process_receipt (blake3 : Bytes → Bytes) (st : ManagerState)
    (r : StorageReceipt) : Except StorageNodeError Unit × ManagerState :=
  match verify_receipt blake3 r with
  | .error e => (.error e, st)
  | .ok _ => (.ok (), { st with receipt_registry := pushReceipt r st.receipt_registry })

/-! ### Claims C3, C10 -/

/-- Metrics whose `HashSet` iteration order lists region `"B"` (byte 66)
before region `"A"` (byte 65). -/
def c3_metrics : StorageMetrics :=
  { bytes_stored := 1, retrievals := 0, operations_count := 0,
    uptime_percentage := 100, regions := [[66], [65]] }

/-- The same metrics field tuple with the opposite (sorted) iteration
order. -/
def c3_metrics_sorted : StorageMetrics :=
  { bytes_stored := 1, retrievals := 0, operations_count := 0,
    uptime_percentage := 100, regions := [[65], [66]] }

/-- A receipt over `c3_metrics` whose `receipt_hash` is exactly what
`verify_receipt` recomputes (taking BLAKE3 to be the identity on the
pre-image, which the model quantifies over). -/
def c3_receipt : StorageReceipt :=
  { node_id := [78], client_id := [67], service_period := (10, 20),
    storage_metrics := c3_metrics,
    receipt_hash :=
      hashInput { node_id := [78], client_id := [67], service_period := (10, 20),
                  storage_metrics := c3_metrics, receipt_hash := [],
                  client_signature := [1], node_signature := [2] },
    client_signature := [1], node_signature := [2] }

/-- C3: the hash pre-image actually used by `verify_receipt` serializes the
regions `HashSet` in iteration order, not lexicographically sorted: a receipt
whose regions iterate as `["B", "A"]` is accepted (its stored hash matches the
recomputed one), yet its pre-image differs from the canonical sorted byte
string of spec §6, and two metrics values with the same field tuple (the same
region set, permuted iteration order) produce different pre-images — the hash
is not determined by the field tuple, contradicting the claim and the
`StorageReceipt.receipt_hash` doc comment "deterministic from other fields"
(rewards.rs:42). -/
theorem receipt_hash_input_not_canonical :
    (process_receipt (fun b => b) ⟨[], [], []⟩ c3_receipt).1 = .ok () ∧
    hashInput c3_receipt ≠ hashInputCanonical c3_receipt ∧
    metricsBincode c3_metrics ≠ metricsBincode c3_metrics_sorted ∧
    c3_metrics.regions.Perm c3_metrics_sorted.regions ∧
    sortLex c3_metrics.regions = c3_metrics_sorted.regions := by
  refine ⟨by decide, by decide, by decide, ?_, by decide⟩
  decide

/-- A receipt with a reversed service period (`start = 20 > end = 10`), valid
signatures, and a matching hash. -/
def c10_receipt : StorageReceipt :=
  { node_id := [78], client_id := [67], service_period := (20, 10),
    storage_metrics :=
      { bytes_stored := 0, retrievals := 0, operations_count := 0,
        uptime_percentage := 100, regions := [] },
    receipt_hash :=
      hashInput { node_id := [78], client_id := [67], service_period := (20, 10),
                  storage_metrics :=
                    { bytes_stored := 0, retrievals := 0, operations_count := 0,
                      uptime_percentage := 100, regions := [] },
                  receipt_hash := [], client_signature := [1], node_signature := [2] },
    client_signature := [1], node_signature := [2] }

/-- C10: `process_receipt` validates only the signatures and the hash — the
service period ordering is never inspected. Every receipt with non-empty
signatures and a matching recomputed hash is accepted and appended to the
node's list, with no condition whatsoever on `service_period` (in particular
a reversed period `start > end` is accepted; see the witness). -/
theorem process_receipt_no_period_validation (blake3 : Bytes → Bytes)
    (st : ManagerState) (r : StorageReceipt)
    (hc : r.client_signature ≠ []) (hn : r.node_signature ≠ [])
    (hh : blake3 (hashInput r) = r.receipt_hash) :
    process_receipt blake3 st r =
      (.ok (), { st with receipt_registry := pushReceipt r st.receipt_registry }) := by
  simp [process_receipt, verify_receipt, hc, hn, hh]

/-- C10 witness: `process_receipt_no_period_validation` applied to the
concrete reversed-period receipt `c10_receipt` (period `(20, 10)`), which is
accepted and appended. -/
theorem process_receipt_no_period_validation_witness :
    c10_receipt.service_period.2 < c10_receipt.service_period.1 ∧
    process_receipt (fun b => b) ⟨[], [], []⟩ c10_receipt =
      (.ok (), { vault_registry := [], receipt_registry := pushReceipt c10_receipt [],
                 distribution_queue := [] }) :=
  ⟨by decide,
   process_receipt_no_period_validation (fun b => b) ⟨[], [], []⟩ c10_receipt
     (by decide) (by decide) (by decide)⟩

/-! ## Vault content and its bincode round-trip (rewards.rs lines 707-721)

`VaultContent` is serialised with `bincode::serialize` before being sealed
into the vault, and deserialised with `bincode::deserialize` after a claim
(rewards.rs:295, 556). bincode v1 default options: fixed-width little-endian
integers; strings and maps are length-prefixed by a `u64` count.
-/

/-- `VaultContent` (rewards.rs:709-721). -/
structure VaultContent where
  token_amount : Nat
  token_id : Bytes
  recipients : List (Bytes × Ratio)
  metadata : List (Bytes × Bytes)
deriving DecidableEq, Repr

/-- bincode encoding of `VaultContent`. Maps are written as a `u64` count
followed by key/value pairs in iteration order. -/
def encodeVaultContent (vc : VaultContent) : Bytes :=
  le64 vc.token_amount ++ encString vc.token_id ++
    le64 vc.recipients.length ++
    (vc.recipients.map (fun p => encString p.1 ++ le64 p.2.raw)).flatten ++
    le64 vc.metadata.length ++
    (vc.metadata.map (fun p => encString p.1 ++ encString p.2)).flatten

/-- Read a fixed-width little-endian `u64`: 8 bytes, least significant
first. -/
def readLE64 : Bytes → Option (Nat × Bytes)
  | b0 :: b1 :: b2 :: b3 :: b4 :: b5 :: b6 :: b7 :: rest =>
    some (b0 + 256 * (b1 + 256 * (b2 + 256 * (b3 + 256 * (b4 + 256 * (b5 + 256 * (b6 + 256 * b7)))))), rest)
  | _ => none

/-- Read a length-prefixed byte string. -/
def readString (b : Bytes) : Option (Bytes × Bytes) :=
  match readLE64 b with
  | none => none
  | some (n, rest) => if rest.length < n then none else some (rest.take n, rest.drop n)

/-- Read `n` key/value pairs, the values being read by `readVal`. -/
def readPairs {α : Type} (readVal : Bytes → Option (α × Bytes)) :
    Nat → Bytes → Option (List (Bytes × α) × Bytes)
  | 0, b => some ([], b)
  | n + 1, b =>
    match readString b with
    | none => none
    | some (k, b1) =>
      match readVal b1 with
      | none => none
      | some (v, b2) =>
        match readPairs readVal n b2 with
        | none => none
        | some (l, b3) => some ((k, v) :: l, b3)

/-- bincode decoding of `VaultContent` (`bincode::deserialize` at
rewards.rs:556). Returns `none` on malformed input; remaining trailing bytes
are irrelevant to every theorem below. -/
def decodeVaultContent (b : Bytes) : Option VaultContent :=
  match readLE64 b with
  | none => none
  | some (ta, b1) =>
    match readString b1 with
    | none => none
    | some (tid, b2) =>
      match readLE64 b2 with
      | none => none
      | some (nr, b3) =>
        match readPairs (fun bb =>
            match readLE64 bb with
            | none => none
            | some (n, rest) => some (Ratio.mk n, rest)) nr b3 with
        | none => none
        | some (recips, b4) =>
          match readLE64 b4 with
          | none => none
          | some (nm, b5) =>
            match readPairs readString nm b5 with
            | none => none
            | some (md, _) => some ⟨ta, tid, recips, md⟩

/-! ## Vault creation (rewards.rs lines 260-358) -/

/-- Hex character code of a nibble (`hex::encode`, lowercase). -/
def hexDigitCode (n : Nat) : Nat :=
  if n < 10 then 48 + n else 87 + n

/-- `hex::encode` of a byte string (rewards.rs:327). -/
def hexEncode (b : Bytes) : Bytes :=
  (b.map (fun x => [hexDigitCode (x / 16), hexDigitCode (x % 16)])).flatten

/-- UTF-8 bytes of `"Reward distribution for "`, the prefix of the
`format!` strings at rewards.rs:314 and 326. -/
def purposeText (token_id : Bytes) : Bytes :=
  [82, 101, 119, 97, 114, 100, 32, 100, 105, 115, 116, 114, 105, 98, 117,
   116, 105, 111, 110, 32, 102, 111, 114, 32] ++ token_id

/-- Adapter invocations recorded against the external `DLVManager`. -/
inductive AdapterCall where
  | createVault
  | createVaultPost
  | tryUnlockVault
  | claimVaultContent
deriving DecidableEq, Repr

/-- Oracle for the two adapter calls made by `create_reward_vault`:
`dlv_manager.create_vault` (rewards.rs:299-308) and
`dlv_manager.create_vault_post` (rewards.rs:311-317), plus the
`bincode::deserialize::<VaultPost>` of the returned post bytes
(rewards.rs:320-321), of which the engine only uses the `status` field.
`VaultPost` lives in the external core crate, so its decoding is part of the
oracle. -/
structure DlvCreateOracle where
  create_vault : Except Bytes Bytes
  create_vault_post : Except Bytes Bytes
  decode_vault_post : Bytes → Except Bytes Bytes
deriving Inhabited

/-- Outcome of `create_reward_vault`: the returned result, the manager state
after the call, and the DLV adapter calls made during it. -/
structure CreateOutcome where
  result : Except StorageNodeError Bytes
  state : ManagerState
  calls : List AdapterCall
deriving DecidableEq, Repr

/-- `HashMap::insert` on the vault registry (rewards.rs:343): replace the
entry for the key if present, append otherwise. -/
def registryInsert (k : Bytes) (v : VaultMetadata) :
    List (Bytes × VaultMetadata) → List (Bytes × VaultMetadata)
  | [] => [(k, v)]
  | (k0, v0) :: rest =>
    if k0 = k then (k, v) :: rest else (k0, v0) :: registryInsert k v rest

/-- `RewardVaultManager::create_reward_vault` (rewards.rs:261-358).
Validates that the recipient ratios sum to `1.0` within the fixed-point
tolerance (`990_000 ≤ Σ raw ≤ 1_010_000`) before doing anything else; on
success it registers the vault metadata (with `created_at = now`, the
`SystemTime::now` reading) and appends a `DistributionRequest` with
`timestamp = distribution_time` to the distribution queue. -/
def create_reward_vault (o : DlvCreateOracle) (st : ManagerState)
    (creator_pub : Bytes) (token_amount : Nat) (token_id : Bytes)
    (distribution_time : Nat) (recipients : List (Bytes × Ratio))
    (reference_state_hash : Bytes) (now : Nat) : CreateOutcome :=
  let ratio_sum := (recipients.map (fun p => p.2.raw)).sum
  if ratio_sum < 990000 ∨ 1010000 < ratio_sum then
    ⟨.error (.Staking (.invalidRatios ratio_sum)), st, []⟩
  else
    match o.create_vault with
    | .error e => ⟨.error (.Staking (.failedCreateVault e)), st, [.createVault]⟩
    | .ok vault_id =>
      match o.create_vault_post with
      | .error e =>
        ⟨.error (.Staking (.failedCreateVaultPost e)), st, [.createVault, .createVaultPost]⟩
      | .ok post_bytes =>
        match o.decode_vault_post post_bytes with
        | .error e => ⟨.error (.Serialization e), st, [.createVault, .createVaultPost]⟩
        | .ok post_status =>
          let metadata : VaultMetadata :=
            { vault_id := vault_id, purpose := purposeText token_id,
              creator_id := hexEncode creator_pub, token_amount := token_amount,
              token_id := token_id, created_at := now,
              distribution_time := distribution_time, recipients := recipients,
              status := post_status }
          ⟨.ok vault_id,
           { st with
             vault_registry := registryInsert vault_id metadata st.vault_registry,
             distribution_queue := st.distribution_queue ++
               [⟨vault_id, reference_state_hash, distribution_time⟩] },
           [.createVault, .createVaultPost]⟩

/-- Tests whether a result is the invalid-ratio-sum error of
rewards.rs:272-277 (the spec's `invalid-argument` on creation). -/
def isInvalidRatiosError : Except StorageNodeError Bytes → Bool
  | .error (.Staking (.invalidRatios _)) => true
  | _ => false

/-! ## Distribution processing (rewards.rs lines 499-677) -/

/-- Association-list lookup (the `HashMap::get` of the registries). -/
def alGet {α : Type} (k : Bytes) : List (Bytes × α) → Option α
  | [] => none
  | (k0, v) :: rest => if k0 = k then some v else alGet k rest

/-- `RewardVaultManager::get_vault` (rewards.rs:500-507). -/
def get_vault (st : ManagerState) (vault_id : Bytes) :
    Except StorageNodeError VaultMetadata :=
  match alGet vault_id st.vault_registry with
  | some m => .ok m
  | none => .error (.NotFound vault_id)

/-- Overwrite the status of the vault with the given id. -/
def setStatus (vault_id status : Bytes) (reg : List (Bytes × VaultMetadata)) :
    List (Bytes × VaultMetadata) :=
  reg.map (fun p => if p.1 = vault_id then (p.1, { p.2 with status := status }) else p)

/-- `RewardVaultManager::update_vault_status` (rewards.rs:614-624). -/
def update_vault_status (st : ManagerState) (vault_id status : Bytes) :
    Except StorageNodeError ManagerState :=
  match alGet vault_id st.vault_registry with
  | some _ => .ok { st with vault_registry := setStatus vault_id status st.vault_registry }
  | none => .error (.NotFound vault_id)

/-- UTF-8 bytes of the status literal `"claimed"` (rewards.rs:567). -/
def claimedBytes : Bytes := [99, 108, 97, 105, 109, 101, 100]

/-- UTF-8 bytes of the status literal `"pending"`. -/
def pendingBytes : Bytes := [112, 101, 110, 100, 105, 110, 103]

/-- Per-recipient amounts computed on a successful claim
(rewards.rs:560-564): `ratio.apply_to(token_amount)` for each recipient, in
map iteration order. -/
def distributionsOf (vc : VaultContent) : List (Bytes × Nat) :=
  vc.recipients.map (fun p => (p.1, p.2.apply_to vc.token_amount))

/-- Oracle for the two adapter calls made by `process_distribution`:
`dlv_manager.try_unlock_vault` (rewards.rs:541-546) and
`dlv_manager.claim_vault_content` (rewards.rs:549-553). -/
structure DlvDistOracle where
  try_unlock_vault : Except Bytes Bool
  claim_vault_content : Except Bytes Bytes
deriving Inhabited

/-- Outcome of `process_distribution`: the returned `Result`, the manager
state after the call, and the DLV adapter calls made during it. -/
structure DistOutcome where
  result : Except StorageNodeError DistributionResult
  state : ManagerState
  calls : List AdapterCall
deriving DecidableEq, Repr

/-- `RewardVaultManager::process_distribution` (rewards.rs:510-611).
Fetches the vault metadata (`Err(NotFound)` when absent — note: no status
check anywhere), returns a non-success result when `now <
distribution_time`, otherwise attempts unlock and claim through the DLV
adapter; on a successful claim the content is bincode-decoded
(`Err(Serialization)` on failure, propagated by `?`), per-recipient amounts
are computed, and the vault status is set to `"claimed"`. -/
def process_distribution (o : DlvDistOracle) (st : ManagerState)
    (req : DistributionRequest) (now : Nat) : DistOutcome :=
  match get_vault st req.vault_id with
  | .error e => ⟨.error e, st, []⟩
  | .ok metadata =>
    if now < metadata.distribution_time then
      ⟨.ok ⟨req.vault_id, false, now, some (.notYetTime metadata.distribution_time), none⟩,
       st, []⟩
    else
      match o.try_unlock_vault with
      | .ok true =>
        match o.claim_vault_content with
        | .ok content =>
          match decodeVaultContent content with
          | none => ⟨.error (.Serialization []), st, [.tryUnlockVault, .claimVaultContent]⟩
          | some vc =>
            match update_vault_status st req.vault_id claimedBytes with
            | .error e => ⟨.error e, st, [.tryUnlockVault, .claimVaultContent]⟩
            | .ok st2 =>
              ⟨.ok ⟨req.vault_id, true, now, none, some (distributionsOf vc)⟩,
               st2, [.tryUnlockVault, .claimVaultContent]⟩
        | .error e =>
          ⟨.ok ⟨req.vault_id, false, now, some (.failedClaim e), none⟩,
           st, [.tryUnlockVault, .claimVaultContent]⟩
      | .ok false =>
        ⟨.ok ⟨req.vault_id, false, now, some .conditionsNotMet, none⟩,
         st, [.tryUnlockVault]⟩
      | .error e =>
        ⟨.ok ⟨req.vault_id, false, now, some (.errorUnlocking e), none⟩,
         st, [.tryUnlockVault]⟩

/-- The `Clone` impl for `RewardVaultManager` (rewards.rs:681-705): the
registries and rate schedule are copied, but the clone gets a freshly
allocated EMPTY distribution queue and a fresh channel. -/
def manager_clone (st : ManagerState) : ManagerState :=
  { st with distribution_queue := [] }

/-- `RewardVaultManager::start_distribution_processor` (rewards.rs:627-677),
spawn-time wiring: the spawned task captures a freshly allocated empty queue
(`Arc::new(Mutex::new(Vec::new()))`, rewards.rs:629) — NOT the manager's
`self.distribution_queue` — and a clone of the manager (whose own queue is
also empty). Returns the pair (task's queue, task's manager view). -/
def start_distribution_processor (st : ManagerState) :
    List DistributionRequest × ManagerState :=
  ([], manager_clone st)

/-- One iteration of the scheduler loop body (rewards.rs:637-675) over a given
queue: partition into `ready` (`timestamp ≤ now`) and `pending`, put
`pending` back, process each ready request in order; an `Ok` result is sent
on the channel, an `Err` is only logged via `error!` and publishes nothing.
Returns (manager view after the tick, queue after the tick, results
published on the channel, in order). -/
def scheduler_tick (o : DlvDistOracle) (now : Nat)
    (queue : List DistributionRequest) (st : ManagerState) :
    ManagerState × List DistributionRequest × List DistributionResult :=
  let parts := queue.partition (fun r => r.timestamp ≤ now)
  let step := fun (acc : ManagerState × List DistributionResult) (req : DistributionRequest) =>
    let out := process_distribution o acc.1 req now
    match out.result with
    | .ok r => (out.state, acc.2 ++ [r])
    | .error _ => (out.state, acc.2)
  let fin := parts.1.foldl step (st, [])
  (fin.1, parts.2, fin.2)

/-- The publication behaviour for a single drained request (rewards.rs
lines 663-674): an `Ok` result is sent on the result channel; an `Err` from
`process_distribution` is logged with `error!` and nothing is published. -/
def publish_for_request (o : DlvDistOracle) (st : ManagerState)
    (req : DistributionRequest) (now : Nat) : List DistributionResult :=
  match (process_distribution o st req now).result with
  | .ok r => [r]
  | .error _ => []

/-! ### Claim C4 -/

/-- C4: `create_reward_vault` fails with the invalid-ratio-sum error exactly
when `Σ recipients.ratio.raw ∉ [990_000, 1_010_000]` (so an empty recipient
map, summing to `0`, is rejected, a sum of `989_999` is rejected, and a sum
of exactly `1_000_000` is never rejected for its ratios), and on that failure
nothing changes: the returned state equals the input state (registry and
queue untouched) and no DLV adapter call is made. Quantified over every
adapter oracle and every input. -/
theorem create_reward_vault_ratio_gate (o : DlvCreateOracle) (st : ManagerState)
    (cp : Bytes) (ta : Nat) (tid : Bytes) (dt : Nat)
    (recipients : List (Bytes × Ratio)) (rsh : Bytes) (now : Nat) :
    (isInvalidRatiosError
        (create_reward_vault o st cp ta tid dt recipients rsh now).result = true ↔
      ((recipients.map (fun p => p.2.raw)).sum < 990000 ∨
        1010000 < (recipients.map (fun p => p.2.raw)).sum)) ∧
    (((recipients.map (fun p => p.2.raw)).sum < 990000 ∨
        1010000 < (recipients.map (fun p => p.2.raw)).sum) →
      (create_reward_vault o st cp ta tid dt recipients rsh now).state = st ∧
      (create_reward_vault o st cp ta tid dt recipients rsh now).calls = []) := by
  by_cases h : (recipients.map (fun p => p.2.raw)).sum < 990000 ∨
      1010000 < (recipients.map (fun p => p.2.raw)).sum
  · refine ⟨⟨fun _ => h, fun _ => ?_⟩, fun _ => ⟨?_, ?_⟩⟩ <;>
      simp [create_reward_vault, if_pos h, isInvalidRatiosError]
  · have hfalse : isInvalidRatiosError
        (create_reward_vault o st cp ta tid dt recipients rsh now).result = false := by
      rcases hc : o.create_vault with e | vid
      · simp [create_reward_vault, if_neg h, hc, isInvalidRatiosError]
      · rcases hp : o.create_vault_post with e | pb
        · simp [create_reward_vault, if_neg h, hc, hp, isInvalidRatiosError]
        · rcases hd : o.decode_vault_post pb with e | s <;>
            simp [create_reward_vault, if_neg h, hc, hp, hd, isInvalidRatiosError]
    exact ⟨by rw [hfalse]; exact iff_of_false (by simp) h, fun hc => absurd hc h⟩

/-- Oracle for the C4 witness (its behaviour is irrelevant: the ratio gate
rejects before any adapter call). -/
def c4_oracle : DlvCreateOracle :=
  ⟨.ok [118], .ok [], fun _ => .ok pendingBytes⟩

/-- C4 witness: `create_reward_vault_ratio_gate` at a concrete single
recipient whose ratio sum is `989_999`: creation fails with the
invalid-ratio error, the state is unchanged and no adapter call was made. -/
theorem create_reward_vault_ratio_gate_witness :
    isInvalidRatiosError
      (create_reward_vault c4_oracle ⟨[], [], []⟩ [1] 1000 [84] 0
        [([65], ⟨989999⟩)] [7] 0).result = true ∧
    (create_reward_vault c4_oracle ⟨[], [], []⟩ [1] 1000 [84] 0
        [([65], ⟨989999⟩)] [7] 0).state = ⟨[], [], []⟩ ∧
    (create_reward_vault c4_oracle ⟨[], [], []⟩ [1] 1000 [84] 0
        [([65], ⟨989999⟩)] [7] 0).calls = [] := by
  have h := create_reward_vault_ratio_gate c4_oracle ⟨[], [], []⟩ [1] 1000 [84] 0
    [([65], ⟨989999⟩)] [7] 0
  exact ⟨h.1.mpr (by decide), (h.2 (by decide)).1, (h.2 (by decide)).2⟩

/-! ### Claim C1 -/

/-- Creation oracle for the C1 scenario: the adapter assigns vault id `"v"`
(byte 118) and a post with status `"pending"`. -/
def c1_create_oracle : DlvCreateOracle :=
  ⟨.ok [118], .ok [], fun _ => .ok pendingBytes⟩

/-- Distribution oracle for the C1 scenario: the adapter would accept the
unlock (it is never asked). -/
def c1_dist_oracle : DlvDistOracle :=
  ⟨.ok true, .ok []⟩

/-- Outcome of creating a reward vault with `distribution_time = 0` on a
fresh manager. -/
def c1_out : CreateOutcome :=
  create_reward_vault c1_create_oracle ⟨[], [], []⟩ [1] 1000 [84] 0
    [([65], ⟨1000000⟩)] [7] 0

/-- C1: vault creation succeeds and appends its `DistributionRequest`
(timestamp `0`) to the manager's `distribution_queue`; that request is due at
the first tick (`0 ≤ now = 100`, it would be drained by the partition), yet
the scheduler spawned by `start_distribution_processor` operates on a freshly
allocated queue that is empty — so the tick at `now = 100` drains nothing,
publishes nothing, invokes `process_distribution` for nothing, and the
request sits in the manager's queue forever. The spec (and the claim) require
the first due tick to drain the request and process it; spec §9 itself flags
the cloned/fresh queue as a latent bug. -/
theorem scheduler_never_observes_created_request :
    c1_out.result = .ok [118] ∧
    c1_out.state.distribution_queue = [⟨[118], [7], 0⟩] ∧
    (c1_out.state.distribution_queue.partition (fun r => r.timestamp ≤ 100)).1 =
      [⟨[118], [7], 0⟩] ∧
    (start_distribution_processor c1_out.state).1 = [] ∧
    scheduler_tick c1_dist_oracle 100 (start_distribution_processor c1_out.state).1
        (start_distribution_processor c1_out.state).2 =
      ((start_distribution_processor c1_out.state).2, [], []) := by
  refine ⟨by decide, by decide, by decide, by decide, by decide⟩

/-! ### Claim C2 -/

/-- Sealed content of the C2 vault: 1000 tokens split 60/40 between
recipients `"A"` and `"B"`. -/
def c2_vc : VaultContent :=
  ⟨1000, [84], [([65], ⟨600000⟩), ([66], ⟨400000⟩)], []⟩

/-- Registered metadata of the C2 vault (id `"v"`, due at time `0`,
initially `"pending"`). -/
def c2_meta : VaultMetadata :=
  { vault_id := [118], purpose := purposeText [84], creator_id := [],
    token_amount := 1000, token_id := [84], created_at := 0,
    distribution_time := 0, recipients := [([65], ⟨600000⟩), ([66], ⟨400000⟩)],
    status := pendingBytes }

/-- Distribution oracle for the C2 scenario: the DLV adapter accepts the time
proof and hands back the sealed content on every call. -/
def c2_oracle : DlvDistOracle :=
  ⟨.ok true, .ok (encodeVaultContent c2_vc)⟩

/-- Manager state holding the C2 vault. -/
def c2_st : ManagerState :=
  ⟨[([118], c2_meta)], [], []⟩

/-- The C2 distribution request. -/
def c2_req : DistributionRequest := ⟨[118], [7], 0⟩

/-- C2 counterexample: the first `process_distribution` on vault `"v"`
succeeds (details `{A:600, B:400}`) and sets the status to `"claimed"`; a
second call on the resulting state — status `≠ pending` — nevertheless
invokes `try_unlock_vault` and `claim_vault_content` again and returns a
SECOND `success = true` result: `process_distribution` never reads the
status, so at-most-once success is not enforced by the manager. -/
theorem second_distribution_succeeds_after_claimed :
    (process_distribution c2_oracle c2_st c2_req 5).result =
      .ok ⟨[118], true, 5, none, some [([65], 600), ([66], 400)]⟩ ∧
    (alGet [118] (process_distribution c2_oracle c2_st c2_req 5).state.vault_registry).map
        (fun m => m.status) = some claimedBytes ∧
    (process_distribution c2_oracle
        (process_distribution c2_oracle c2_st c2_req 5).state c2_req 5).result =
      .ok ⟨[118], true, 5, none, some [([65], 600), ([66], 400)]⟩ ∧
    (process_distribution c2_oracle
        (process_distribution c2_oracle c2_st c2_req 5).state c2_req 5).calls =
      [.tryUnlockVault, .claimVaultContent] := by
  refine ⟨by decide, by decide, by decide, by decide⟩

/-- C2 (amended): `process_distribution` never inspects the vault status.
Whenever the vault is registered (with ANY status, `"claimed"` included), the
request is due, and the DLV adapter permits unlock and claim of decodable
content, the call invokes both adapter operations and returns `success =
true` with the per-recipient amounts — so a vault can be successfully
distributed more than once whenever the external adapter allows a repeat
unlock/claim; exactly-once success is delegated to the adapter, not enforced
by the manager. -/
theorem process_distribution_success_ignores_status (o : DlvDistOracle)
    (st : ManagerState) (req : DistributionRequest) (now : Nat)
    (m : VaultMetadata) (content : Bytes) (vc : VaultContent)
    (hm : alGet req.vault_id st.vault_registry = some m)
    (hdue : m.distribution_time ≤ now)
    (hu : o.try_unlock_vault = .ok true)
    (hc : o.claim_vault_content = .ok content)
    (hd : decodeVaultContent content = some vc) :
    process_distribution o st req now =
      ⟨.ok ⟨req.vault_id, true, now, none, some (distributionsOf vc)⟩,
       { st with vault_registry := setStatus req.vault_id claimedBytes st.vault_registry },
       [.tryUnlockVault, .claimVaultContent]⟩ := by
  simp [process_distribution, get_vault, update_vault_status, hm, hu, hc, hd,
    Nat.not_lt.mpr hdue]

/-- Metadata for the C2 witness: the same vault, already `"claimed"`. -/
def c2_meta_claimed : VaultMetadata :=
  { c2_meta with status := claimedBytes }

/-- C2 witness: `process_distribution_success_ignores_status` applied to a
vault whose status is already `"claimed"`: the call still succeeds and still
makes both adapter calls. -/
theorem process_distribution_success_ignores_status_witness :
    process_distribution c2_oracle ⟨[([118], c2_meta_claimed)], [], []⟩ c2_req 5 =
      ⟨.ok ⟨[118], true, 5, none, some (distributionsOf c2_vc)⟩,
       { vault_registry := setStatus [118] claimedBytes [([118], c2_meta_claimed)],
         receipt_registry := [], distribution_queue := [] },
       [.tryUnlockVault, .claimVaultContent]⟩ :=
  process_distribution_success_ignores_status c2_oracle
    ⟨[([118], c2_meta_claimed)], [], []⟩ c2_req 5 c2_meta_claimed
    (encodeVaultContent c2_vc) c2_vc (by decide) (by decide) (by decide)
    (by decide) (by decide)

/-! ### Claim C6 -/

/-- Distribution oracle for the C6 scenarios. -/
def c6_oracle : DlvDistOracle := ⟨.ok true, .ok []⟩

/-- C6 counterexample: a drained request whose vault id (`"v"`, byte 118) is
not in the registry makes `process_distribution` return
`Err(NotFound)`; the scheduler loop body only LOGS that error — it publishes
NO `DistributionResult` at all for the request, refuting both "every error
... is converted into a DistributionResult ... and published" and "for every
drained request exactly one DistributionResult is published". -/
theorem scheduler_publishes_nothing_on_not_found :
    publish_for_request c6_oracle ⟨[], [], []⟩ ⟨[118], [7], 0⟩ 50 = [] ∧
    (process_distribution c6_oracle ⟨[], [], []⟩ ⟨[118], [7], 0⟩ 50).result =
      .error (.NotFound [118]) := by
  refine ⟨by decide, by decide⟩

/-- C6 (amended): of the errors arising for a drained request, those that
`process_distribution` returns as `Ok` non-success results — not yet due,
unlock declined, unlock error, claim error — are published as exactly one
`success = false` result; but a vault id missing from the registry or a
claimed-content deserialization failure make `process_distribution` return
`Err`, which the scheduler only logs: NO result is published for such a
request. No error is propagated out of the scheduler loop in either case. -/
theorem scheduler_publication_per_outcome (o : DlvDistOracle)
    (st : ManagerState) (req : DistributionRequest) (now : Nat) :
    (alGet req.vault_id st.vault_registry = none →
      publish_for_request o st req now = []) ∧
    (∀ m, alGet req.vault_id st.vault_registry = some m →
      now < m.distribution_time →
      publish_for_request o st req now =
        [⟨req.vault_id, false, now, some (.notYetTime m.distribution_time), none⟩]) ∧
    (∀ m, alGet req.vault_id st.vault_registry = some m →
      m.distribution_time ≤ now → o.try_unlock_vault = .ok false →
      publish_for_request o st req now =
        [⟨req.vault_id, false, now, some .conditionsNotMet, none⟩]) ∧
    (∀ m e, alGet req.vault_id st.vault_registry = some m →
      m.distribution_time ≤ now → o.try_unlock_vault = .error e →
      publish_for_request o st req now =
        [⟨req.vault_id, false, now, some (.errorUnlocking e), none⟩]) ∧
    (∀ m e, alGet req.vault_id st.vault_registry = some m →
      m.distribution_time ≤ now → o.try_unlock_vault = .ok true →
      o.claim_vault_content = .error e →
      publish_for_request o st req now =
        [⟨req.vault_id, false, now, some (.failedClaim e), none⟩]) ∧
    (∀ m c, alGet req.vault_id st.vault_registry = some m →
      m.distribution_time ≤ now → o.try_unlock_vault = .ok true →
      o.claim_vault_content = .ok c → decodeVaultContent c = none →
      publish_for_request o st req now = []) := by
  refine ⟨?_, ?_, ?_, ?_, ?_, ?_⟩
  · intro h
    simp [publish_for_request, process_distribution, get_vault, h]
  · intro m hm hlt
    simp [publish_for_request, process_distribution, get_vault, hm, hlt]
  · intro m hm hle hu
    simp [publish_for_request, process_distribution, get_vault, hm, hu,
      Nat.not_lt.mpr hle]
  · intro m e hm hle hu
    simp [publish_for_request, process_distribution, get_vault, hm, hu,
      Nat.not_lt.mpr hle]
  · intro m e hm hle hu hc
    simp [publish_for_request, process_distribution, get_vault, hm, hu, hc,
      Nat.not_lt.mpr hle]
  · intro m c hm hle hu hc hd
    simp [publish_for_request, process_distribution, get_vault, hm, hu, hc, hd,
      Nat.not_lt.mpr hle]

/-- Metadata for the C6 witness: vault `"w"` (byte 119) scheduled at
time 100. -/
def c6_meta : VaultMetadata :=
  { vault_id := [119], purpose := [], creator_id := [], token_amount := 5,
    token_id := [84], created_at := 0, distribution_time := 100,
    recipients := [([65], ⟨1000000⟩)], status := pendingBytes }

/-- C6 witness: `scheduler_publication_per_outcome` at a concrete not-yet-due
request (due at 100, tick at 50): exactly one non-success result is
published. -/
theorem scheduler_publication_per_outcome_witness :
    publish_for_request c6_oracle ⟨[([119], c6_meta)], [], []⟩ ⟨[119], [7], 100⟩ 50 =
      [⟨[119], false, 50, some (.notYetTime 100), none⟩] :=
  (scheduler_publication_per_outcome c6_oracle ⟨[([119], c6_meta)], [], []⟩
    ⟨[119], [7], 100⟩ 50).2.1 c6_meta (by decide) (by decide)

end DSMRewards
